import Mathlib

/-!
Verification of the configuration-resolution module of `ward`
(`src/ward/_config.py`) against its natural-language specification.

The Python module is shallowly embedded:

* `PyVal` models the Python values that flow through the module
  (ints, strings, booleans, lists, tuples, `None`, and `Path` objects),
  together with Python truthiness and iteration.
* `ConfigDict` models a Python `dict` with string keys as an ordered
  association list; `dget`, `dset`, `dupdate` mirror `dict.get`,
  item assignment and `dict.update` (insertion order preserved,
  assignment to an existing key overwrites in place).
* `PyPath` models `pathlib.PosixPath`: parsing drops empty and `"."`
  components, `/` joins (an absolute right operand replaces the left),
  and `relative_to` succeeds exactly when the base's components are a
  prefix of the path's components (pathlib cannot "walk up" with `..`).
* `FileState` models what the filesystem holds at a given path for the
  purposes of `toml.load`: the file is missing, malformed, or parses
  with an optional `tool.ward` section.
* `read_config_toml`, `as_list`, `apply_multi_defaults` and
  `set_defaults_from_config` are translated line by line from the
  source.  `find_project_root` lives in `ward/_utilities.py` (an
  external collaborator of this module) and is modelled as a parameter
  of the environment.  Errors (`click.FileError`, and the `TypeError` /
  `ValueError` that `pathlib` raises) are modelled with `Except` and
  the `RunError` type; an error result carries the context as mutated
  up to the point the exception was raised.
-/

/-- A `pathlib.PurePosixPath`: an absolute flag plus the parsed components. -/
structure PyPath : Type where
  absolute : Bool
  parts : List String
  deriving DecidableEq, Repr

/-- A Python value as used by the module. -/
inductive PyVal : Type where
  | vInt (n : Int) : PyVal
  | vStr (s : String) : PyVal
  | vBool (b : Bool) : PyVal
  | vList (l : List PyVal) : PyVal
  | vTuple (l : List PyVal) : PyVal
  | vNone : PyVal
  | vPath (p : PyPath) : PyVal

/-- Python truthiness (`bool(v)`). -/
def pyTruthy : PyVal → Bool
  | .vInt n => n != 0
  | .vStr s => !s.data.isEmpty
  | .vBool b => b
  | .vList l => !l.isEmpty
  | .vTuple l => !l.isEmpty
  | .vNone => false
  | .vPath _ => true

/-- Truthiness of the result of `dict.get` (`None` when the key is absent). -/
def optTruthy : Option PyVal → Bool
  | none => false
  | some v => pyTruthy v

/-- A Python `dict` with string keys, as an insertion-ordered association list. -/
abbrev ConfigDict := List (String × PyVal)

/-- `d.get(k)` / `d[k]` lookup. -/
def dget : ConfigDict → String → Option PyVal
  | [], _ => none
  | (k', v) :: rest, k => if k' = k then some v else dget rest k

/-- `d.get(k, dflt)`. -/
def dgetD (d : ConfigDict) (k : String) (dflt : PyVal) : PyVal :=
  (dget d k).getD dflt

/-- `d[k] = v`: overwrite in place when the key exists, else append. -/
def dset : ConfigDict → String → PyVal → ConfigDict
  | [], k, v => [(k, v)]
  | (k', v') :: rest, k, v =>
    if k' = k then (k', v) :: rest else (k', v') :: dset rest k v

/-- `d.update(other)`. -/
def dupdate (d other : ConfigDict) : ConfigDict :=
  other.foldl (fun acc kv => dset acc kv.1 kv.2) d

/-- Errors the module can raise: `click.FileError(filename, hint)`, the
`ValueError` from `Path.relative_to` (carrying the offending absolute path
and the base it could not be expressed against), and `TypeError` from
iterating a non-iterable or joining a non-string onto a path. -/
inductive RunError : Type where
  | fileError (filename : String) (hint : String) : RunError
  | relocError (path : String) (base : String) : RunError
  | typeError : RunError
  deriving DecidableEq, Repr

/-- Split a character list on a separator character. -/
def splitOnChar (c : Char) : List Char → List (List Char)
  | [] => [[]]
  | ch :: rest =>
    if ch = c then [] :: splitOnChar c rest
    else
      match splitOnChar c rest with
      | [] => [[ch]]
      | h :: t => (ch :: h) :: t

/-- `pathlib` path parsing: split on `/`, drop empty and `"."` components,
remember whether the string was absolute. -/
def parsePath (s : String) : PyPath :=
  let comps := (splitOnChar '/' s.data).map (fun cs => String.mk cs)
  .mk (s.data.head? = some '/')
    (comps.filter (fun c => c ≠ "" ∧ c ≠ "."))

/-- Join path components with `/`. -/
def joinParts : List String → String
  | [] => ""
  | [p] => p
  | p :: rest => p ++ "/" ++ joinParts rest

/-- `str(path)`: a relative path with no components prints as `"."`. -/
def pathStr (p : PyPath) : String :=
  if p.absolute then "/" ++ joinParts p.parts
  else if p.parts.isEmpty then "." else joinParts p.parts

/-- `p / s`: parse the right operand; if it is absolute it replaces `p`. -/
def pathJoin (p : PyPath) (s : String) : PyPath :=
  let q := parsePath s
  if q.absolute then q else .mk p.absolute (p.parts ++ q.parts)

/-- `p.relative_to(base)`: succeeds iff `base`'s components are a prefix of
`p`'s (same absoluteness); otherwise `pathlib` raises `ValueError` naming
both paths. -/
def relativeTo (p base : PyPath) : Except (String × String) PyPath :=
  if base.absolute = p.absolute ∧ base.parts.isPrefixOf p.parts then
    .ok (.mk false (p.parts.drop base.parts.length))
  else .error (pathStr p, pathStr base)

/-- The state of the file a given path points at, as far as `toml.load`
is concerned: missing, unparsable, or parsed with an optional `tool.ward`
section (`parsed none` is a file whose TOML has no such section). -/
inductive FileState : Type where
  | missing : FileState
  | malformed (msg : String) : FileState
  | parsed (ward : Option ConfigDict) : FileState

/-- `k.replace("--", "")`: remove every non-overlapping occurrence of
`--`, scanning left to right. -/
def replaceDashDash : List Char → List Char
  | '-' :: '-' :: rest => replaceDashDash rest
  | c :: rest => c :: replaceDashDash rest
  | [] => []

/-- `k.replace("--", "").replace("-", "_")`, the key normalisation of
`read_config_toml`. -/
def normalizeKey (k : String) : String :=
  String.mk ((replaceDashDash k.data).map (fun c => if c = '-' then '_' else c))

def CONFIG_FILE : String := "pyproject.toml"

/-- `read_config_toml(project_root, config_file)`.  `fsys` is the
filesystem; the `dict` comprehension over the `tool.ward` section becomes a
left fold of assignments into an empty dict. -/
def read_config_toml (fsys : PyPath → FileState) (project_root : PyPath)
    (config_file : String) : Except RunError ConfigDict :=
  match fsys (pathJoin project_root config_file) with
  | .missing => .ok []
  | .malformed msg =>
    .error (.fileError config_file
      ("Error reading " ++ config_file ++ ":\n" ++ msg))
  | .parsed ward =>
    let ward_config := ward.getD []
    .ok (ward_config.foldl (fun acc kv => dset acc (normalizeKey kv.1) kv.2) [])

/-- `as_list(conf)`. -/
def as_list (conf : PyVal) : PyVal :=
  match conf with
  | .vList l => .vList l
  | v => .vList [v]

/-- `apply_multi_defaults(file_config, cli_config)`. -/
def apply_multi_defaults (file_config cli_config : ConfigDict) : ConfigDict :=
  let cli_paths := dget cli_config "path"
  let conf_file_paths := dgetD file_config "path" (.vStr ".")
  let file_config_only : ConfigDict :=
    if pyTruthy conf_file_paths && !optTruthy cli_paths then
      dset [] "path" (as_list conf_file_paths)
    else []
  let multiple_options := ["exclude", "hook_module"]
  multiple_options.foldl (fun acc param =>
    let from_cli := dget cli_config param
    let from_conf_file := dgetD file_config param (.vStr "")
    if pyTruthy from_conf_file && !optTruthy from_cli then
      dset acc param (as_list from_conf_file)
    else acc) file_config_only

/-- `iter(v)` for the values the module iterates: a string yields its
characters as one-character strings; lists and tuples yield their elements;
anything else raises `TypeError`. -/
def pyIterElems : PyVal → Except RunError (List PyVal)
  | .vStr s => .ok (s.data.map (fun c => .vStr (String.mk [c])))
  | .vList l => .ok l
  | .vTuple l => .ok l
  | _ => .error .typeError

/-- Require every element of a list of Python values to be a string
(`Path(elem)` raises `TypeError` otherwise). -/
def collectStrs : List PyVal → Except RunError (List String)
  | [] => .ok []
  | .vStr s :: rest =>
    match collectStrs rest with
    | .ok ss => .ok (s :: ss)
    | .error e => .error e
  | _ :: _ => .error .typeError

/-- Iterate a value and require every element to be a string. -/
def pyStrList (v : PyVal) : Except RunError (List String) :=
  match pyIterElems v with
  | .error e => .error e
  | .ok elems => collectStrs elems

/-- The relocation of one file-sourced path string:
`str((project_root / path_str).relative_to(Path.cwd()))`, total version
used to state success results. -/
def relocStr (root cwd : PyPath) (s : String) : String :=
  match relativeTo (pathJoin root s) cwd with
  | .ok p => pathStr p
  | .error _ => ""

/-- Whether `(project_root / s).relative_to(cwd)` succeeds. -/
def relocOk (root cwd : PyPath) (s : String) : Bool :=
  match relativeTo (pathJoin root s) cwd with
  | .ok _ => true
  | .error _ => false

/-- The inner loop of the relocation stage: relocate each element in
order, stopping at the first element that is not a string (`TypeError`
from `/`) or that cannot be expressed relative to `cwd` (`ValueError`
from `relative_to`). -/
def relocatePaths (root cwd : PyPath) : List PyVal → Except RunError (List PyVal)
  | [] => .ok []
  | .vStr s :: rest =>
    match relativeTo (pathJoin root s) cwd with
    | .ok p =>
      match relocatePaths root cwd rest with
      | .ok vs => .ok (.vStr (pathStr p) :: vs)
      | .error e => .error e
    | .error ab => .error (.relocError ab.1 ab.2)
  | _ :: _ => .error .typeError

/-- Relocate one config value: iterate it (a bare string iterates as its
characters) and collect the rewritten strings into a tuple. -/
def relocateOne (root cwd : PyPath) (v : PyVal) : Except RunError PyVal :=
  match pyIterElems v with
  | .error e => .error e
  | .ok elems =>
    match relocatePaths root cwd elems with
    | .ok vs => .ok (.vTuple vs)
    | .error e => .error e

/-- The keys subject to relocation (`path_config_keys`). -/
def pathConfigKeys : List String := ["path", "exclude"]

/-- The relocation loop over `file_config.items()`: entries under a key in
`path_config_keys` are replaced by the tuple of relocated strings, other
entries pass through; replacing values of existing keys during iteration
preserves dict order. -/
def relocateAll (root cwd : PyPath) : ConfigDict → Except RunError ConfigDict
  | [] => .ok []
  | (k, v) :: rest =>
    if k ∈ pathConfigKeys then
      match relocateOne root cwd v with
      | .ok v' =>
        match relocateAll root cwd rest with
        | .ok d => .ok ((k, v') :: d)
        | .error e => .error e
      | .error e => .error e
    else
      match relocateAll root cwd rest with
      | .ok d => .ok ((k, v) :: d)
      | .error e => .error e

/-- The `click.Context` state the module touches: the parsed parameters
and the default map (`None` until created). -/
structure Context : Type where
  params : ConfigDict
  default_map : Option ConfigDict

/-- The invocation environment: the filesystem, the working directory, and
`find_project_root` from `ward/_utilities.py` (an external collaborator of
this module, modelled as an arbitrary function of the search paths). -/
structure Env : Type where
  fs : PyPath → FileState
  cwd : PyPath
  findRoot : List PyPath → PyPath

/-- `search_paths`: the CLI-supplied paths if truthy, else `(".",)`. -/
def searchPathsVal (ctx : Context) : PyVal :=
  match dget ctx.params "path" with
  | some v => if pyTruthy v then v else .vTuple [.vStr "."]
  | none => .vTuple [.vStr "."]

/-- `set_defaults_from_config` up to (and including) the merge of
`apply_multi_defaults` into `file_config`: yields the mutated context, the
project root, the merged file config and the recorded config path.  Every
error this stage can raise happens before any mutation of the context. -/
def stagePre (env : Env) (ctx : Context) :
    Except RunError (Context × PyPath × ConfigDict × Option PyPath) :=
  match pyStrList (searchPathsVal ctx) with
  | .error e => .error e
  | .ok strs =>
    let project_root := env.findRoot (strs.map parsePath)
    match read_config_toml env.fs project_root CONFIG_FILE with
    | .error e => .error e
    | .ok file_config =>
      let config_path : Option PyPath :=
        if file_config.isEmpty then none
        else some (pathJoin project_root "pyproject.toml")
      let params := dset ctx.params "config_path"
        (match config_path with | some p => .vPath p | none => .vNone)
      let dmap := ctx.default_map.getD []
      let ctx' : Context := { params := params, default_map := some dmap }
      let multi_defaults := apply_multi_defaults file_config params
      .ok (ctx', project_root, dupdate file_config multi_defaults, config_path)

/-- `set_defaults_from_config(context, param, value)`: returns the context
as left by the call together with either the raised error or the returned
`config_path`. -/
def set_defaults_from_config (env : Env) (ctx : Context) :
    Context × Except RunError (Option PyPath) :=
  match stagePre env ctx with
  | .error e => (ctx, .error e)
  | .ok (ctx', project_root, file_config, config_path) =>
    match relocateAll project_root env.cwd file_config with
    | .error e => (ctx', .error e)
    | .ok file_config' =>
      ({ ctx' with
          default_map := some (dupdate (ctx'.default_map.getD []) file_config') },
        .ok config_path)

/-- The string elements of a value, when it iterates to only strings. -/
def strElems (v : PyVal) : Option (List String) :=
  match pyIterElems v with
  | .error _ => none
  | .ok elems =>
    match collectStrs elems with
    | .ok ss => some ss
    | .error _ => none

/-- The relocated value of a config entry, as a function of its key:
path-option entries become the tuple of relocated strings, others pass
through (total companion of `relocateAll`, defined for string-element
values). -/
def relocValue (root cwd : PyPath) (k : String) (v : PyVal) : PyVal :=
  if k ∈ pathConfigKeys then
    .vTuple (((strElems v).getD []).map fun s => .vStr (relocStr root cwd s))
  else v

/-- The empty invocation context (no CLI parameters parsed yet). -/
def ctxEmpty : Context := { params := [], default_map := none }

/-- The project root `/repo` used by the concrete scenarios. -/
def rootRepo : PyPath := parsePath "/repo"

/-- Invocation with no configuration file anywhere. -/
def envMissing : Env :=
  { fs := fun _ => .missing, cwd := rootRepo, findRoot := fun _ => rootRepo }

/-- `pyproject.toml` declares `path = "sub"` in `tool.ward`; cwd is `/repo`. -/
def envSub : Env :=
  { fs := fun _ => .parsed (some [("path", .vStr "sub")]),
    cwd := rootRepo, findRoot := fun _ => rootRepo }

/-- Same configuration file, but the working directory is `/repo/nested`. -/
def envSubNested : Env := { envSub with cwd := parsePath "/repo/nested" }

/-- A configuration file that exists but cannot be parsed. -/
def envMalformed : Env :=
  { fs := fun _ => .malformed "boom", cwd := rootRepo, findRoot := fun _ => rootRepo }

/-- A configuration file that parses but has no `tool.ward` section. -/
def envNoWard : Env :=
  { fs := fun _ => .parsed none, cwd := rootRepo, findRoot := fun _ => rootRepo }

/-- The key normalisation as the claim words it: strip a literal `--`
prefix (only), then convert every remaining `-` into `_`.  Stated from
the claim for comparison with the source's `normalizeKey`. -/
def claimNormalizeKey (k : String) : String :=
  let stripped : List Char :=
    match k.data with
    | '-' :: '-' :: rest => rest
    | cs => cs
  String.mk (stripped.map (fun c => if c = '-' then '_' else c))

/-- `tool.ward` section `{"path": "tests", "exclude": "build"}`, root and
cwd both `/repo`. -/
def envTestsBuild : Env :=
  { fs := fun _ => .parsed (some [("path", .vStr "tests"), ("exclude", .vStr "build")]),
    cwd := rootRepo, findRoot := fun _ => rootRepo }

/-- `tool.ward` section `{"exclude": "ab"}` (a scalar string), root and
cwd both `/repo`. -/
def envScalarExclude : Env :=
  { fs := fun _ => .parsed (some [("exclude", .vStr "ab")]),
    cwd := rootRepo, findRoot := fun _ => rootRepo }

/-- A context whose CLI parameters carry a truthy `exclude` value. -/
def ctxCliExclude : Context :=
  { params := [("exclude", .vTuple [.vStr "dist/"])], default_map := none }

theorem dget_dset_self (d : ConfigDict) (k : String) (v : PyVal) :
    dget (dset d k v) k = some v := by
  induction d with
  | nil => simp [dset, dget]
  | cons kv rest ih =>
    obtain ⟨k', v'⟩ := kv
    by_cases h : k' = k <;> simp [dset, dget, h, ih]

theorem dget_dset_ne (d : ConfigDict) (k k' : String) (v : PyVal)
    (h : k' ≠ k) : dget (dset d k' v) k = dget d k := by
  induction d with
  | nil => simp [dset, dget, h]
  | cons kv rest ih =>
    obtain ⟨k'', v''⟩ := kv
    by_cases h2 : k'' = k' <;> by_cases h3 : k'' = k <;>
      simp_all [dset, dget]

theorem dget_isSome_dset (d : ConfigDict) (k k' : String) (v : PyVal)
    (h : (dget d k).isSome = true) : (dget (dset d k' v) k).isSome = true := by
  by_cases hk : k' = k
  · subst hk; simp [dget_dset_self]
  · rwa [dget_dset_ne _ _ _ _ hk]

theorem isPrefixOf_self (l : List String) : l.isPrefixOf l = true := by
  induction l with
  | nil => rfl
  | cons a rest ih => simp [List.isPrefixOf, ih]

theorem relativeTo_error_eq (p base : PyPath) (ab : String × String)
    (h : relativeTo p base = .error ab) : ab = (pathStr p, pathStr base) := by
  unfold relativeTo at h
  split at h
  · exact absurd h (by simp)
  · simpa using h.symm

theorem collectStrs_map_vStr (ss : List String) :
    collectStrs (ss.map PyVal.vStr) = .ok ss := by
  induction ss with
  | nil => rfl
  | cons s rest ih => simp [collectStrs, ih]

theorem collectStrs_ok_eq (elems : List PyVal) (ss : List String)
    (h : collectStrs elems = .ok ss) : elems = ss.map PyVal.vStr := by
  induction elems generalizing ss with
  | nil =>
    simp only [collectStrs] at h
    cases h
    rfl
  | cons e rest ih =>
    cases e with
    | vStr s =>
      simp only [collectStrs] at h
      cases hr : collectStrs rest with
      | ok ss' =>
        rw [hr] at h
        cases h
        simp [ih ss' hr]
      | error e' => rw [hr] at h; cases h
    | vInt n => simp [collectStrs] at h
    | vBool b => simp [collectStrs] at h
    | vList l => simp [collectStrs] at h
    | vTuple l => simp [collectStrs] at h
    | vNone => simp [collectStrs] at h
    | vPath p => simp [collectStrs] at h

theorem strElems_iter (v : PyVal) (ss : List String)
    (h : strElems v = some ss) : pyIterElems v = .ok (ss.map PyVal.vStr) := by
  cases hi : pyIterElems v with
  | error e => simp [strElems, hi] at h
  | ok elems =>
    cases hc : collectStrs elems with
    | ok ss' =>
      have hss : ss' = ss := by simpa [strElems, hi, hc] using h
      subst hss
      exact congrArg Except.ok (collectStrs_ok_eq elems ss' hc)
    | error e => simp [strElems, hi, hc] at h

theorem relocatePaths_map_ok (root cwd : PyPath) (ss : List String)
    (h : ∀ s ∈ ss, relocOk root cwd s = true) :
    relocatePaths root cwd (ss.map PyVal.vStr) =
      .ok (ss.map fun s => PyVal.vStr (relocStr root cwd s)) := by
  induction ss with
  | nil => rfl
  | cons s rest ih =>
    have hs := h s (by simp)
    have hrest := ih (fun t ht => h t (by simp [ht]))
    cases hrel : relativeTo (pathJoin root s) cwd with
    | error ab => simp [relocOk, hrel] at hs
    | ok p => simp [relocatePaths, hrel, hrest, relocStr]

theorem relocatePaths_first_fail (root cwd : PyPath) (ss : List String)
    (h : ∃ s ∈ ss, relocOk root cwd s = false) :
    ∃ q ∈ ss, relocOk root cwd q = false ∧
      relocatePaths root cwd (ss.map PyVal.vStr) =
        .error (.relocError (pathStr (pathJoin root q)) (pathStr cwd)) := by
  induction ss with
  | nil => simp at h
  | cons s rest ih =>
    cases hrel : relativeTo (pathJoin root s) cwd with
    | error ab =>
      have hab := relativeTo_error_eq _ _ _ hrel
      refine ⟨s, by simp, by simp [relocOk, hrel], ?_⟩
      simp [relocatePaths, hrel, hab]
    | ok p =>
      have hs : relocOk root cwd s = true := by simp [relocOk, hrel]
      obtain ⟨t, ht, htf⟩ := h
      rcases List.mem_cons.mp ht with rfl | htrest
      · rw [hs] at htf; cases htf
      · obtain ⟨q, hq, hqf, heq⟩ := ih ⟨t, htrest, htf⟩
        exact ⟨q, by simp [hq], hqf, by simp [relocatePaths, hrel, heq]⟩

theorem relocateOne_str_ok (root cwd : PyPath) (v : PyVal) (ss : List String)
    (hv : strElems v = some ss) (h : ∀ s ∈ ss, relocOk root cwd s = true) :
    relocateOne root cwd v =
      .ok (.vTuple (ss.map fun s => .vStr (relocStr root cwd s))) := by
  have hi := strElems_iter v ss hv
  simp [relocateOne, hi, relocatePaths_map_ok root cwd ss h]

theorem relocateOne_str_fail (root cwd : PyPath) (v : PyVal) (ss : List String)
    (hv : strElems v = some ss) (h : ∃ s ∈ ss, relocOk root cwd s = false) :
    ∃ q ∈ ss, relocOk root cwd q = false ∧
      relocateOne root cwd v =
        .error (.relocError (pathStr (pathJoin root q)) (pathStr cwd)) := by
  have hi := strElems_iter v ss hv
  obtain ⟨q, hq, hqf, heq⟩ := relocatePaths_first_fail root cwd ss h
  exact ⟨q, hq, hqf, by simp [relocateOne, hi, heq]⟩

theorem relocateAll_map_ok (root cwd : PyPath) (d : ConfigDict)
    (hall : ∀ kv ∈ d, kv.1 ∈ pathConfigKeys →
      ∃ ss, strElems kv.2 = some ss ∧ ∀ s ∈ ss, relocOk root cwd s = true) :
    relocateAll root cwd d =
      .ok (d.map fun kv => (kv.1, relocValue root cwd kv.1 kv.2)) := by
  induction d with
  | nil => rfl
  | cons kv rest ih =>
    obtain ⟨k, v⟩ := kv
    have hrest := ih (fun kv' h' hk' => hall kv' (List.mem_cons_of_mem _ h') hk')
    by_cases hk : k ∈ pathConfigKeys
    · obtain ⟨ss, hss, hok⟩ := hall (k, v) (by simp) hk
      have h1 := relocateOne_str_ok root cwd v ss hss hok
      simp [relocateAll, hk, h1, hrest, relocValue, hss]
    · simp [relocateAll, hk, hrest, relocValue]

theorem relocateAll_fail (root cwd : PyPath) (d : ConfigDict)
    (hall : ∀ kv ∈ d, kv.1 ∈ pathConfigKeys → ∃ ss, strElems kv.2 = some ss)
    (hfail : ∃ kv ∈ d, kv.1 ∈ pathConfigKeys ∧ ∃ ss, strElems kv.2 = some ss ∧
      ∃ s ∈ ss, relocOk root cwd s = false) :
    ∃ kv ∈ d, kv.1 ∈ pathConfigKeys ∧ ∃ ss, strElems kv.2 = some ss ∧
      ∃ q ∈ ss, relocOk root cwd q = false ∧
      relocateAll root cwd d =
        .error (.relocError (pathStr (pathJoin root q)) (pathStr cwd)) := by
  induction d with
  | nil => simp at hfail
  | cons kv rest ih =>
    obtain ⟨k, v⟩ := kv
    by_cases hk : k ∈ pathConfigKeys
    · obtain ⟨ss, hss⟩ := hall (k, v) (by simp) hk
      by_cases hko : ∀ s ∈ ss, relocOk root cwd s = true
      · have h1 := relocateOne_str_ok root cwd v ss hss hko
        obtain ⟨kv', hkv', hk', ss', hss', s', hs', hsf⟩ := hfail
        rcases List.mem_cons.mp hkv' with heq | hrestm
        · subst heq
          rw [hss] at hss'
          cases hss'
          rw [hko s' hs'] at hsf
          cases hsf
        · obtain ⟨kv2, hkv2, hk2, ss2, hss2, q, hq, hqf, heq2⟩ :=
            ih (fun kv2 h2 hk2 => hall kv2 (List.mem_cons_of_mem _ h2) hk2)
              ⟨kv', hrestm, hk', ss', hss', s', hs', hsf⟩
          exact ⟨kv2, List.mem_cons_of_mem _ hkv2, hk2, ss2, hss2, q, hq, hqf,
            by simp [relocateAll, hk, h1, heq2]⟩
      · have hex : ∃ s ∈ ss, relocOk root cwd s = false := by
          push_neg at hko
          obtain ⟨s, hs, hsf⟩ := hko
          exact ⟨s, hs, by simpa using hsf⟩
        obtain ⟨q, hq, hqf, heq⟩ := relocateOne_str_fail root cwd v ss hss hex
        exact ⟨(k, v), by simp, hk, ss, hss, q, hq, hqf,
          by simp [relocateAll, hk, heq]⟩
    · obtain ⟨kv', hkv', hk', hw⟩ := hfail
      rcases List.mem_cons.mp hkv' with heq | hrestm
      · subst heq
        exact absurd hk' hk
      · obtain ⟨kv2, hkv2, hk2, ss2, hss2, q, hq, hqf, heq2⟩ :=
          ih (fun kv2 h2 hk2 => hall kv2 (List.mem_cons_of_mem _ h2) hk2)
            ⟨kv', hrestm, hk', hw⟩
        exact ⟨kv2, List.mem_cons_of_mem _ hkv2, hk2, ss2, hss2, q, hq, hqf,
          by simp [relocateAll, hk, heq2]⟩

theorem dget_map_relocValue (root cwd : PyPath) (d : ConfigDict) (k : String) :
    dget (d.map fun kv => (kv.1, relocValue root cwd kv.1 kv.2)) k =
      (dget d k).map (relocValue root cwd k) := by
  induction d with
  | nil => rfl
  | cons kv rest ih =>
    obtain ⟨k', v⟩ := kv
    by_cases h : k' = k
    · subst h; simp [dget]
    · simp [dget, h, ih]

theorem amd_dget_path (file cli : ConfigDict) :
    dget (apply_multi_defaults file cli) "path" =
      if pyTruthy (dgetD file "path" (.vStr ".")) && !optTruthy (dget cli "path")
      then some (as_list (dgetD file "path" (.vStr "."))) else none := by
  unfold apply_multi_defaults
  simp only [List.foldl]
  by_cases h0 : pyTruthy (dgetD file "path" (.vStr ".")) && !optTruthy (dget cli "path") <;>
    by_cases h1 : pyTruthy (dgetD file "exclude" (.vStr "")) && !optTruthy (dget cli "exclude") <;>
      by_cases h2 : pyTruthy (dgetD file "hook_module" (.vStr "")) && !optTruthy (dget cli "hook_module") <;>
        simp [h0, h1, h2, dget, dset]

theorem amd_dget_exclude (file cli : ConfigDict) :
    dget (apply_multi_defaults file cli) "exclude" =
      if pyTruthy (dgetD file "exclude" (.vStr "")) && !optTruthy (dget cli "exclude")
      then some (as_list (dgetD file "exclude" (.vStr ""))) else none := by
  unfold apply_multi_defaults
  simp only [List.foldl]
  by_cases h0 : pyTruthy (dgetD file "path" (.vStr ".")) && !optTruthy (dget cli "path") <;>
    by_cases h1 : pyTruthy (dgetD file "exclude" (.vStr "")) && !optTruthy (dget cli "exclude") <;>
      by_cases h2 : pyTruthy (dgetD file "hook_module" (.vStr "")) && !optTruthy (dget cli "hook_module") <;>
        simp [h0, h1, h2, dget, dset]

theorem amd_dget_hook (file cli : ConfigDict) :
    dget (apply_multi_defaults file cli) "hook_module" =
      if pyTruthy (dgetD file "hook_module" (.vStr "")) && !optTruthy (dget cli "hook_module")
      then some (as_list (dgetD file "hook_module" (.vStr ""))) else none := by
  unfold apply_multi_defaults
  simp only [List.foldl]
  by_cases h0 : pyTruthy (dgetD file "path" (.vStr ".")) && !optTruthy (dget cli "path") <;>
    by_cases h1 : pyTruthy (dgetD file "exclude" (.vStr "")) && !optTruthy (dget cli "exclude") <;>
      by_cases h2 : pyTruthy (dgetD file "hook_module" (.vStr "")) && !optTruthy (dget cli "hook_module") <;>
        simp [h0, h1, h2, dget, dset]

theorem dget_foldl_norm_isSome (sec : ConfigDict) (acc : ConfigDict) (k0 : String)
    (h : (dget acc k0).isSome = true) :
    (dget (sec.foldl (fun a kv => dset a (normalizeKey kv.1) kv.2) acc) k0).isSome = true := by
  induction sec generalizing acc with
  | nil => exact h
  | cons kv rest ih =>
    exact ih (dset acc (normalizeKey kv.1) kv.2)
      (dget_isSome_dset acc k0 (normalizeKey kv.1) kv.2 h)

theorem dget_foldl_norm_present (sec : ConfigDict) (acc : ConfigDict)
    (k : String) (v : PyVal) (h : (k, v) ∈ sec) :
    (dget (sec.foldl (fun a kv => dset a (normalizeKey kv.1) kv.2) acc)
      (normalizeKey k)).isSome = true := by
  induction sec generalizing acc with
  | nil => simp at h
  | cons kv rest ih =>
    rcases List.mem_cons.mp h with heq | hrest
    · subst heq
      exact dget_foldl_norm_isSome rest _ _ (by simp [dget_dset_self])
    · exact ih _ hrest

theorem relocateAll_dot (root : PyPath) :
    relocateAll root root [("path", PyVal.vList [PyVal.vStr "."])] =
      .ok [("path", PyVal.vTuple [PyVal.vStr "."])] := by
  have h1 : pathJoin root "." = PyPath.mk root.absolute root.parts := by
    simp [pathJoin, show parsePath "." = PyPath.mk false [] from rfl]
  have h2 : relativeTo (PyPath.mk root.absolute root.parts) root =
      .ok (PyPath.mk false []) := by
    simp [relativeTo, isPrefixOf_self, List.drop_length]
  simp [relocateAll, pathConfigKeys, relocateOne, pyIterElems, relocatePaths,
    h1, h2, pathStr]

theorem amd_empty_file (cli : ConfigDict)
    (h : optTruthy (dget cli "path") = false) :
    apply_multi_defaults [] cli = [("path", PyVal.vList [PyVal.vStr "."])] := by
  simp only [apply_multi_defaults, h]
  rfl

theorem searchPathsVal_falsy (ctx : Context)
    (h : optTruthy (dget ctx.params "path") = false) :
    searchPathsVal ctx = .vTuple [.vStr "."] := by
  unfold searchPathsVal
  cases hp : dget ctx.params "path" with
  | none => rfl
  | some v =>
    rw [hp] at h
    simp only [optTruthy] at h
    simp [h]

theorem stagePre_empty_read (env : Env) (ctx : Context)
    (h2 : optTruthy (dget ctx.params "path") = false)
    (hread : read_config_toml env.fs (env.findRoot [parsePath "."]) CONFIG_FILE = .ok []) :
    stagePre env ctx = .ok
      ({ params := dset ctx.params "config_path" .vNone,
         default_map := some (ctx.default_map.getD []) },
       env.findRoot [parsePath "."],
       [("path", PyVal.vList [PyVal.vStr "."])],
       none) := by
  have hmd := amd_empty_file (dset ctx.params "config_path" PyVal.vNone)
    (by rw [dget_dset_ne _ _ _ _ (by decide)]; exact h2)
  unfold stagePre
  rw [searchPathsVal_falsy ctx h2]
  simp only [show pyStrList (.vTuple [.vStr "."]) = .ok ["."] from rfl, List.map]
  rw [hread]
  simp [hmd, dupdate, dset]

theorem set_defaults_empty_read (env : Env) (ctx : Context)
    (h2 : optTruthy (dget ctx.params "path") = false)
    (hread : read_config_toml env.fs (env.findRoot [parsePath "."]) CONFIG_FILE = .ok [])
    (h3 : env.cwd = env.findRoot [parsePath "."]) :
    set_defaults_from_config env ctx =
      ({ params := dset ctx.params "config_path" .vNone,
         default_map := some (dset (ctx.default_map.getD []) "path"
           (.vTuple [.vStr "."])) },
       .ok none) := by
  unfold set_defaults_from_config
  rw [stagePre_empty_read env ctx h2 hread, h3]
  simp [relocateAll_dot, dupdate, dset]


/-- C8: `as_list` returns sequences unchanged and wraps every scalar
(int, string, bool) in a one-element list; in particular
`as_list(["a","b"]) = ["a","b"]` and `as_list("a") = ["a"]`. -/
theorem C8_as_list_total :
    (∀ l : List PyVal, as_list (.vList l) = .vList l) ∧
    (∀ n : Int, as_list (.vInt n) = .vList [.vInt n]) ∧
    (∀ s : String, as_list (.vStr s) = .vList [.vStr s]) ∧
    (∀ b : Bool, as_list (.vBool b) = .vList [.vBool b]) ∧
    as_list (.vList [.vStr "a", .vStr "b"]) = .vList [.vStr "a", .vStr "b"] ∧
    as_list (.vStr "a") = .vList [.vStr "a"] :=
  ⟨fun _ => rfl, fun _ => rfl, fun _ => rfl, fun _ => rfl, rfl, rfl⟩

/-- C1 fails on the code: with no configuration file and no CLI paths the
call still adds the key `path` (the `"."` default, relocated) to the
default map, which was empty before the call; only the `None` config-path
part of the claim holds. -/
theorem C1_counterexample :
    ctxEmpty.default_map = none ∧
    (set_defaults_from_config envMissing ctxEmpty).2 = .ok none ∧
    (set_defaults_from_config envMissing ctxEmpty).1.default_map =
      some [("path", PyVal.vTuple [PyVal.vStr "."])] ∧
    some ([("path", PyVal.vTuple [PyVal.vStr "."])] : ConfigDict) ≠
      some ([] : ConfigDict) :=
  ⟨rfl, rfl, rfl, by simp⟩

/-- C1 (amended): when the configuration file is missing and the CLI
supplied no (truthy) paths, the call records and returns the `None`
sentinel as the config path, and the default map changes in exactly one
way: the key `path` is set to the one-element tuple of the relocated
default search path `"."` (no other key is added or changed). -/
theorem C1_missing_file_defaults (env : Env) (ctx : Context)
    (h1 : env.fs (pathJoin (env.findRoot [parsePath "."]) CONFIG_FILE) = .missing)
    (h2 : optTruthy (dget ctx.params "path") = false)
    (h3 : env.cwd = env.findRoot [parsePath "."]) :
    set_defaults_from_config env ctx =
      ({ params := dset ctx.params "config_path" .vNone,
         default_map := some (dset (ctx.default_map.getD []) "path"
           (.vTuple [.vStr "."])) },
       .ok none) := by
  apply set_defaults_empty_read env ctx h2 _ h3
  unfold read_config_toml
  rw [h1]

/-- C1 witness: the amended statement evaluated on the concrete
missing-file invocation. -/
theorem C1_witness :
    set_defaults_from_config envMissing ctxEmpty =
      ({ params := [("config_path", PyVal.vNone)],
         default_map := some [("path", PyVal.vTuple [PyVal.vStr "."])] },
       .ok none) :=
  C1_missing_file_defaults envMissing ctxEmpty rfl rfl rfl

/-- C2 fails on the code: with `project_root=/repo`, file entry
`path="sub"` and `cwd=/repo/nested` the relocated value is not `"../sub"`;
`relative_to` cannot walk upward, so the call raises the relocation
error naming `/repo/sub` and `/repo/nested` and stores nothing. -/
theorem C2_counterexample :
    (set_defaults_from_config envSubNested ctxEmpty).2 =
      .error (.relocError "/repo/sub" "/repo/nested") ∧
    (set_defaults_from_config envSubNested ctxEmpty).1.default_map = some [] ∧
    some ([] : ConfigDict) ≠
      some [("path", PyVal.vTuple [PyVal.vStr "../sub"])] :=
  ⟨rfl, rfl, by simp⟩

/-- C2 (amended): with `project_root=/repo` and file entry `path="sub"`,
relocation yields `"sub"` when `cwd=/repo`; when `cwd=/repo/nested` the
absolute location `/repo/sub` cannot be expressed relative to the working
directory and the call fails with the relocation error naming both paths
(no `"../sub"` is ever produced). -/
theorem C2_path_relocation :
    (set_defaults_from_config envSub ctxEmpty).1.default_map =
      some [("path", PyVal.vTuple [PyVal.vStr "sub"])] ∧
    (set_defaults_from_config envSub ctxEmpty).2 =
      .ok (some (pathJoin rootRepo "pyproject.toml")) ∧
    (set_defaults_from_config envSubNested ctxEmpty).2 =
      .error (.relocError "/repo/sub" "/repo/nested") :=
  ⟨rfl, rfl, rfl⟩

/-- C4: when the configuration file exists but fails to parse, the call
aborts with the `click.FileError` carrying the filename and the
underlying cause, and the context — its default map included — is exactly
as it was before the call. -/
theorem C4_parse_error_aborts (env : Env) (ctx : Context) (msg : String)
    (strs : List String)
    (h1 : pyStrList (searchPathsVal ctx) = .ok strs)
    (h2 : env.fs (pathJoin (env.findRoot (strs.map parsePath)) CONFIG_FILE) =
      .malformed msg) :
    set_defaults_from_config env ctx =
      (ctx, .error (.fileError CONFIG_FILE
        ("Error reading " ++ CONFIG_FILE ++ ":\n" ++ msg))) := by
  unfold set_defaults_from_config stagePre read_config_toml
  simp [h1, h2]

/-- C4 witness: a malformed `pyproject.toml` aborts the concrete
invocation with the file error and leaves the context untouched. -/
theorem C4_witness :
    set_defaults_from_config envMalformed ctxEmpty =
      (ctxEmpty, .error (.fileError "pyproject.toml"
        "Error reading pyproject.toml:\nboom")) :=
  C4_parse_error_aborts envMalformed ctxEmpty "boom" ["."] rfl rfl

/-- C10: when `pyproject.toml` exists and parses but its `tool.ward`
section is absent or empty, the call records `None` in
`context.params["config_path"]` and returns `None`, as if no file had
been used. -/
theorem C10_empty_section_sentinel (env : Env) (ctx : Context)
    (h1 : env.fs (pathJoin (env.findRoot [parsePath "."]) CONFIG_FILE) = .parsed none ∨
      env.fs (pathJoin (env.findRoot [parsePath "."]) CONFIG_FILE) = .parsed (some []))
    (h2 : optTruthy (dget ctx.params "path") = false)
    (h3 : env.cwd = env.findRoot [parsePath "."]) :
    dget (set_defaults_from_config env ctx).1.params "config_path" =
      some .vNone ∧
    (set_defaults_from_config env ctx).2 = .ok none := by
  have hread : read_config_toml env.fs (env.findRoot [parsePath "."])
      CONFIG_FILE = .ok [] := by
    unfold read_config_toml
    rcases h1 with h | h <;> rw [h] <;> rfl
  rw [set_defaults_empty_read env ctx h2 hread h3]
  exact ⟨dget_dset_self _ _ _, rfl⟩

/-- C10 witness: the sentinel behaviour on a concrete file that parses
with no `tool.ward` section. -/
theorem C10_witness :
    dget (set_defaults_from_config envNoWard ctxEmpty).1.params "config_path" =
      some PyVal.vNone ∧
    (set_defaults_from_config envNoWard ctxEmpty).2 = .ok none :=
  C10_empty_section_sentinel envNoWard ctxEmpty (Or.inl rfl) rfl rfl

/-- C3: precedence for the multi-valued keys `path`, `exclude` and
`hook_module` is all-or-nothing per key: a truthy file value together
with a falsy/absent CLI value yields exactly `as_list(file value)` under
that key, while a truthy CLI value suppresses the key entirely — the two
lists are never merged. -/
theorem C3_all_or_nothing_precedence (file cli : ConfigDict) (k : String)
    (hk : k = "path" ∨ k = "exclude" ∨ k = "hook_module") :
    (∀ v, dget file k = some v → pyTruthy v = true →
      optTruthy (dget cli k) = false →
      dget (apply_multi_defaults file cli) k = some (as_list v)) ∧
    (optTruthy (dget cli k) = true →
      dget (apply_multi_defaults file cli) k = none) := by
  constructor
  · intro v hv htr hcf
    rcases hk with rfl | rfl | rfl
    · rw [amd_dget_path, show dgetD file "path" (.vStr ".") = v from by
        simp [dgetD, hv], htr, hcf]
      rfl
    · rw [amd_dget_exclude, show dgetD file "exclude" (.vStr "") = v from by
        simp [dgetD, hv], htr, hcf]
      rfl
    · rw [amd_dget_hook, show dgetD file "hook_module" (.vStr "") = v from by
        simp [dgetD, hv], htr, hcf]
      rfl
  · intro hcf
    rcases hk with rfl | rfl | rfl
    · rw [amd_dget_path, hcf]; simp
    · rw [amd_dget_exclude, hcf]; simp
    · rw [amd_dget_hook, hcf]; simp

/-- C3 witness: file `exclude=["build/"]` with absent CLI `exclude` is
taken over verbatim; CLI `exclude=["dist/"]` suppresses the file value. -/
theorem C3_witness :
    dget (apply_multi_defaults [("exclude", PyVal.vList [PyVal.vStr "build/"])] [])
      "exclude" = some (PyVal.vList [PyVal.vStr "build/"]) ∧
    dget (apply_multi_defaults [("exclude", PyVal.vList [PyVal.vStr "build/"])]
      [("exclude", PyVal.vList [PyVal.vStr "dist/"])]) "exclude" = none :=
  ⟨(C3_all_or_nothing_precedence _ [] "exclude" (Or.inr (Or.inl rfl))).1
      (PyVal.vList [PyVal.vStr "build/"]) rfl rfl rfl,
   (C3_all_or_nothing_precedence [("exclude", PyVal.vList [PyVal.vStr "build/"])]
      _ "exclude" (Or.inr (Or.inl rfl))).2 rfl⟩


/-- C6 fails on the code: `str.replace("--", "")` removes every
occurrence of `--`, not only a prefix; for the section key `a--b` the
claimed normalisation gives `a__b`, but the code stores the value under
`ab` and no `a__b` key exists in the result. -/
theorem C6_counterexample :
    claimNormalizeKey "a--b" = "a__b" ∧
    normalizeKey "a--b" = "ab" ∧
    read_config_toml (fun _ => .parsed (some [("a--b", .vInt 1)])) rootRepo
      CONFIG_FILE = .ok [("ab", .vInt 1)] ∧
    dget [("ab", PyVal.vInt 1)] "a__b" = none :=
  ⟨rfl, rfl, rfl, rfl⟩

/-- C6 (amended): every key `k` of the `tool.ward` section ends up with
an entry under `normalizeKey k` — `k` with every non-overlapping
occurrence of `--` removed (scanning left to right) and each remaining
`-` converted to `_`; for a single-entry section the entry is exactly
`(normalizeKey k, v)`, and `--hook-module` maps to `hook_module`. -/
theorem C6_key_normalization (fsys : PyPath → FileState) (root : PyPath)
    (sec : ConfigDict) (k : String) (v : PyVal)
    (hf : fsys (pathJoin root CONFIG_FILE) = .parsed (some sec))
    (hm : (k, v) ∈ sec) :
    (∃ d, read_config_toml fsys root CONFIG_FILE = .ok d ∧
      (dget d (normalizeKey k)).isSome = true) ∧
    (sec = [(k, v)] →
      read_config_toml fsys root CONFIG_FILE = .ok [(normalizeKey k, v)]) ∧
    normalizeKey "--hook-module" = "hook_module" := by
  refine ⟨⟨sec.foldl (fun a kv => dset a (normalizeKey kv.1) kv.2) [], ?_,
    dget_foldl_norm_present sec [] k v hm⟩, ?_, rfl⟩
  · unfold read_config_toml
    rw [hf]
    rfl
  · intro hsec
    subst hsec
    unfold read_config_toml
    rw [hf]
    rfl

/-- C6 witness: the amended statement on a one-entry section with the
key `--hook-module`. -/
theorem C6_witness :
    (∃ d, read_config_toml
        (fun _ => FileState.parsed (some [("--hook-module", PyVal.vStr "m")]))
        rootRepo CONFIG_FILE = .ok d ∧
      (dget d (normalizeKey "--hook-module")).isSome = true) ∧
    (([(("--hook-module" : String), PyVal.vStr "m")] : ConfigDict) =
        [("--hook-module", PyVal.vStr "m")] →
      read_config_toml
        (fun _ => FileState.parsed (some [("--hook-module", PyVal.vStr "m")]))
        rootRepo CONFIG_FILE = .ok [("hook_module", PyVal.vStr "m")]) ∧
    normalizeKey "--hook-module" = "hook_module" :=
  C6_key_normalization _ rootRepo _ "--hook-module" (PyVal.vStr "m") rfl
    (by simp)


/-- C5: when some file-sourced path entry's absolute location
`project_root / p` cannot be expressed relative to the working directory,
the call fails with the relocation error naming that offending location
and the working directory (not with success or an unrelated error).  The
hypotheses state that the pipeline reached the relocation stage and that
every path-option value iterates to string elements. -/
theorem C5_relocation_error (env : Env) (ctx : Context) (ctx' : Context)
    (root : PyPath) (fc : ConfigDict) (cp : Option PyPath)
    (hpre : stagePre env ctx = .ok (ctx', root, fc, cp))
    (hall : ∀ kv ∈ fc, kv.1 ∈ pathConfigKeys → ∃ ss, strElems kv.2 = some ss)
    (hfail : ∃ kv ∈ fc, kv.1 ∈ pathConfigKeys ∧ ∃ ss, strElems kv.2 = some ss ∧
      ∃ s ∈ ss, relocOk root env.cwd s = false) :
    ∃ kv ∈ fc, kv.1 ∈ pathConfigKeys ∧ ∃ ss, strElems kv.2 = some ss ∧
      ∃ q ∈ ss, relocOk root env.cwd q = false ∧
      (set_defaults_from_config env ctx).2 =
        .error (.relocError (pathStr (pathJoin root q)) (pathStr env.cwd)) := by
  obtain ⟨kv, hkv, hk, ss, hss, q, hq, hqf, heq⟩ :=
    relocateAll_fail root env.cwd fc hall hfail
  refine ⟨kv, hkv, hk, ss, hss, q, hq, hqf, ?_⟩
  unfold set_defaults_from_config
  rw [hpre]
  simp [heq]

/-- C5 witness: the file entry `path="sub"` under root `/repo` with
working directory `/repo/nested` makes the call fail with the relocation
error naming `/repo/sub` and `/repo/nested`. -/
theorem C5_witness :
    ∃ kv ∈ ([("path", PyVal.vList [PyVal.vStr "sub"])] : ConfigDict),
      kv.1 ∈ pathConfigKeys ∧ ∃ ss, strElems kv.2 = some ss ∧
      ∃ q ∈ ss, relocOk rootRepo envSubNested.cwd q = false ∧
      (set_defaults_from_config envSubNested ctxEmpty).2 =
        .error (.relocError (pathStr (pathJoin rootRepo q))
          (pathStr envSubNested.cwd)) :=
  C5_relocation_error envSubNested ctxEmpty
    { params := [("config_path",
        PyVal.vPath (PyPath.mk true ["repo", "pyproject.toml"]))],
      default_map := some [] }
    rootRepo [("path", PyVal.vList [PyVal.vStr "sub"])]
    (some (PyPath.mk true ["repo", "pyproject.toml"]))
    rfl
    (fun kv hkv _ => by
      rw [List.mem_singleton.mp hkv]
      exact ⟨["sub"], rfl⟩)
    ⟨("path", PyVal.vList [PyVal.vStr "sub"]), by simp,
      by simp [pathConfigKeys], ["sub"], rfl, "sub", by simp, rfl⟩

/-- C7: a relocated path-option entry keeps its key and the order of its
elements and becomes a tuple of the rewritten strings; in particular the
end-to-end scenario — root `/repo`, section
`{"path": "tests", "exclude": "build"}`, empty CLI config, cwd `/repo` —
produces the default map `{"path": ("tests",), "exclude": ("build",)}`. -/
theorem C7_tuple_order :
    (∀ (root cwd : PyPath) (d : ConfigDict) (k : String) (v : PyVal)
      (ss : List String),
      dget d k = some v → k ∈ pathConfigKeys → strElems v = some ss →
      (∀ kv ∈ d, kv.1 ∈ pathConfigKeys →
        ∃ ss', strElems kv.2 = some ss' ∧ ∀ s ∈ ss', relocOk root cwd s = true) →
      ∃ d', relocateAll root cwd d = .ok d' ∧
        dget d' k = some (.vTuple (ss.map fun s => .vStr (relocStr root cwd s)))) ∧
    (set_defaults_from_config envTestsBuild ctxEmpty).1.default_map =
      some [("path", PyVal.vTuple [PyVal.vStr "tests"]),
            ("exclude", PyVal.vTuple [PyVal.vStr "build"])] ∧
    (set_defaults_from_config envTestsBuild ctxEmpty).2 =
      .ok (some (pathJoin rootRepo "pyproject.toml")) := by
  refine ⟨?_, rfl, rfl⟩
  intro root cwd d k v ss hv hk hss hall
  refine ⟨_, relocateAll_map_ok root cwd d hall, ?_⟩
  rw [dget_map_relocValue, hv]
  simp [relocValue, hk, hss]

/-- C7 witness: the order/tuple statement on a one-entry dict. -/
theorem C7_witness :
    ∃ d', relocateAll rootRepo rootRepo
        [("path", PyVal.vList [PyVal.vStr "tests"])] = .ok d' ∧
      dget d' "path" = some (PyVal.vTuple [PyVal.vStr "tests"]) :=
  C7_tuple_order.1 rootRepo rootRepo
    [("path", PyVal.vList [PyVal.vStr "tests"])] "path"
    (PyVal.vList [PyVal.vStr "tests"]) ["tests"] rfl
    (by simp [pathConfigKeys]) rfl
    (fun kv hkv _ => by
      rw [List.mem_singleton.mp hkv]
      exact ⟨["tests"], rfl, fun s hs => by
        rw [List.mem_singleton.mp hs]; rfl⟩)

/-- C9: a path-option value that reaches relocation as a bare string is
iterated character by character — each character is relocated on its own
and the stored tuple has one entry per character; concretely, file
`exclude = "ab"` with a truthy CLI `exclude` yields the default-map entry
`exclude = ("a", "b")`, not a single relocated path. -/
theorem C9_scalar_string_chars :
    (∀ (root cwd : PyPath) (s : String),
      (∀ c ∈ s.data, relocOk root cwd (String.mk [c]) = true) →
      relocateOne root cwd (.vStr s) =
        .ok (.vTuple (s.data.map fun c =>
          .vStr (relocStr root cwd (String.mk [c]))))) ∧
    (set_defaults_from_config envScalarExclude ctxCliExclude).1.default_map =
      some [("exclude", PyVal.vTuple [PyVal.vStr "a", PyVal.vStr "b"]),
            ("path", PyVal.vTuple [PyVal.vStr "."])] := by
  refine ⟨?_, rfl⟩
  intro root cwd s h
  have h1 : ∀ l : List Char,
      collectStrs (l.map (fun c => PyVal.vStr (String.mk [c]))) =
        .ok (l.map (fun c => String.mk [c])) := by
    intro l
    induction l with
    | nil => rfl
    | cons c rest ih => simp [collectStrs, ih]
  have hse : strElems (.vStr s) = some (s.data.map fun c => String.mk [c]) := by
    simp [strElems, pyIterElems, h1 s.data]
  have h2 : ∀ t ∈ s.data.map (fun c => String.mk [c]),
      relocOk root cwd t = true := by
    intro t ht
    obtain ⟨c, hc, rfl⟩ := List.mem_map.mp ht
    exact h c hc
  have := relocateOne_str_ok root cwd (.vStr s)
    (s.data.map fun c => String.mk [c]) hse h2
  rw [this, List.map_map]
  rfl

/-- C9 witness: the per-character relocation on the concrete string
`"ab"`. -/
theorem C9_witness :
    relocateOne rootRepo rootRepo (PyVal.vStr "ab") =
      .ok (PyVal.vTuple [PyVal.vStr "a", PyVal.vStr "b"]) :=
  C9_scalar_string_chars.1 rootRepo rootRepo "ab" (by decide)
